import Mathlib

/-!
A verification development for the FastAPI AI-service gateway.

The definitions below are a shallow embedding of the repository's core:
the cache-key hasher and Redis-backed cache service
(`src/app/services/cache_service.py`), API-key authentication
(`src/app/core/auth.py`, `src/app/services/api_key_service.py`), usage
recording (`src/app/services/usage_service.py`), the per-operation request
handlers (`src/app/api/v1/chat.py`, `summarize.py`, `translate.py`) and the
rate limiter wiring (`src/app/core/rate_limit.py`).

Machine integers are modelled as `Nat`/`Int` with explicit `% 2^32` where
Python's `hashlib` works on 32-bit words; Python dictionaries are modelled
as association lists; `None`-able values as `Option`; raised exceptions as
explicit error constructors.
-/

namespace AIService

/-! ## SHA-256

`cache_service.CacheService._generate_key` and `api_key_service.hash_key`
both call `hashlib.sha256` on UTF-8 encoded text and use the lowercase hex
digest.  The hash is embedded here in full (FIPS 180-4), over byte lists,
with 32-bit words as `Nat` reduced mod `2^32`.
-/

/-- The 64 SHA-256 round constants (fractional parts of cube roots of the
first 64 primes). -/
def shaK : List Nat :=
  [1116352408, 1899447441, 3049323471, 3921009573, 961987163, 1508970993,
   2453635748, 2870763221, 3624381080, 310598401, 607225278, 1426881987,
   1925078388, 2162078206, 2614888103, 3248222580, 3835390401, 4022224774,
   264347078, 604807628, 770255983, 1249150122, 1555081692, 1996064986,
   2554220882, 2821834349, 2952996808, 3210313671, 3336571891, 3584528711,
   113926993, 338241895, 666307205, 773529912, 1294757372, 1396182291,
   1695183700, 1986661051, 2177026350, 2456956037, 2730485921, 2820302411,
   3259730800, 3345764771, 3516065817, 3600352804, 4094571909, 275423344,
   430227734, 506948616, 659060556, 883997877, 958139571, 1322822218,
   1537002063, 1747873779, 1955562222, 2024104815, 2227730452, 2361852424,
   2428436474, 2756734187, 3204031479, 3329325298]

/-- Addition of 32-bit words, reduced mod `2^32`. -/
def wadd (a b : Nat) : Nat := (a + b) % 4294967296

/-- Right rotation of a 32-bit word by `n` places. -/
def rotr (n x : Nat) : Nat := ((x >>> n) ||| (x <<< (32 - n))) % 4294967296

/-- Bitwise complement of a 32-bit word. -/
def wnot (x : Nat) : Nat := x ^^^ 4294967295

/-- SHA-256 `Ch e f g = (e ∧ f) ⊕ (¬e ∧ g)`. -/
def shaCh (e f g : Nat) : Nat := (e &&& f) ^^^ (wnot e &&& g)

/-- SHA-256 `Maj a b c = (a ∧ b) ⊕ (a ∧ c) ⊕ (b ∧ c)`. -/
def shaMaj (a b c : Nat) : Nat := (a &&& b) ^^^ (a &&& c) ^^^ (b &&& c)

/-- SHA-256 `Σ₀`. -/
def bigSigma0 (x : Nat) : Nat := rotr 2 x ^^^ rotr 13 x ^^^ rotr 22 x

/-- SHA-256 `Σ₁`. -/
def bigSigma1 (x : Nat) : Nat := rotr 6 x ^^^ rotr 11 x ^^^ rotr 25 x

/-- SHA-256 `σ₀`. -/
def smallSigma0 (x : Nat) : Nat := rotr 7 x ^^^ rotr 18 x ^^^ (x >>> 3)

/-- SHA-256 `σ₁`. -/
def smallSigma1 (x : Nat) : Nat := rotr 17 x ^^^ rotr 19 x ^^^ (x >>> 10)

/-- The eight 32-bit working variables of the compression function. -/
structure ShaState where
  a : Nat
  b : Nat
  c : Nat
  d : Nat
  e : Nat
  f : Nat
  g : Nat
  h : Nat

/-- The SHA-256 initial hash value (fractional parts of square roots of the
first 8 primes). -/
def shaInit : ShaState :=
  ⟨1779033703, 3144134277, 1013904242, 2773480762,
   1359893119, 2600822924, 528734635, 1541459225⟩

/-- One compression round. -/
def shaRound (s : ShaState) (k w : Nat) : ShaState :=
  let t1 := wadd (wadd (wadd (wadd s.h (bigSigma1 s.e)) (shaCh s.e s.f s.g)) k) w
  let t2 := wadd (bigSigma0 s.a) (shaMaj s.a s.b s.c)
  ⟨wadd t1 t2, s.a, s.b, s.c, wadd s.d t1, s.e, s.f, s.g⟩

/-- Pack bytes into big-endian 32-bit words, four bytes per word. -/
def toWords : List Nat → List Nat
  | b0 :: b1 :: b2 :: b3 :: rest =>
      (b0 * 16777216 + b1 * 65536 + b2 * 256 + b3) % 4294967296 :: toWords rest
  | _ => []

/-- Extend the 16 block words to the 64-word message schedule. -/
def shaSchedule (w16 : List Nat) : List Nat :=
  (List.range 48).foldl
    (fun w _ =>
      w ++ [wadd
        (wadd (wadd (w.getD (w.length - 16) 0) (smallSigma0 (w.getD (w.length - 15) 0)))
          (w.getD (w.length - 7) 0))
        (smallSigma1 (w.getD (w.length - 2) 0))])
    w16

/-- Compress one 64-byte block into the running hash state. -/
def shaCompress (s : ShaState) (block : List Nat) : ShaState :=
  let w := shaSchedule (toWords block)
  let t := (List.range 64).foldl (fun st i => shaRound st (shaK.getD i 0) (w.getD i 0)) s
  ⟨wadd s.a t.a, wadd s.b t.b, wadd s.c t.c, wadd s.d t.d,
   wadd s.e t.e, wadd s.f t.f, wadd s.g t.g, wadd s.h t.h⟩

/-- Split a byte list into consecutive 64-byte blocks. -/
def shaBlocks (l : List Nat) : List (List Nat) :=
  if h : l = [] then []
  else l.take 64 :: shaBlocks (l.drop 64)
termination_by l.length
decreasing_by
  simp only [List.length_drop]
  have : l.length ≠ 0 := fun hz => h (List.eq_nil_of_length_eq_zero hz)
  omega

/-- The message length in bits, as 8 big-endian bytes. -/
def lengthBytes (bits : Nat) : List Nat :=
  [bits >>> 56 % 256, bits >>> 48 % 256, bits >>> 40 % 256, bits >>> 32 % 256,
   bits >>> 24 % 256, bits >>> 16 % 256, bits >>> 8 % 256, bits % 256]

/-- SHA-256 padding: a `0x80` byte, zeros to 56 mod 64, then the bit length. -/
def shaPad (msg : List Nat) : List Nat :=
  msg ++ [128] ++ List.replicate ((119 - msg.length % 64) % 64) 0
      ++ lengthBytes (8 * msg.length)

/-- A 32-bit word as four big-endian bytes. -/
def wordBytes (x : Nat) : List Nat :=
  [x >>> 24 % 256, x >>> 16 % 256, x >>> 8 % 256, x % 256]

/-- The 32 digest bytes of a final hash state. -/
def stateBytes (s : ShaState) : List Nat :=
  wordBytes s.a ++ wordBytes s.b ++ wordBytes s.c ++ wordBytes s.d ++
  wordBytes s.e ++ wordBytes s.f ++ wordBytes s.g ++ wordBytes s.h

/-- SHA-256 of a byte list, as the 32 digest bytes. -/
def sha256 (msg : List Nat) : List Nat :=
  stateBytes ((shaBlocks (shaPad msg)).foldl shaCompress shaInit)

/-- Every digest byte is below 256. -/
theorem sha256_byte_lt {b : Nat} {msg : List Nat} (hb : b ∈ sha256 msg) : b < 256 := by
  have hword : ∀ x : Nat, ∀ y ∈ wordBytes x, y < 256 := by
    intro x y hy
    simp only [wordBytes, List.mem_cons, List.not_mem_nil, or_false] at hy
    rcases hy with h | h | h | h <;> subst h <;> exact Nat.mod_lt _ (by norm_num)
  simp only [sha256, stateBytes, List.mem_append] at hb
  rcases hb with ((((((h | h) | h) | h) | h) | h) | h) | h <;> exact hword _ _ h

/-- The digest always has 32 bytes. -/
theorem sha256_length (msg : List Nat) : (sha256 msg).length = 32 := by
  simp [sha256, stateBytes, wordBytes]

/-! ## Hex digests and UTF-8

`hashlib.sha256(...).hexdigest()` renders the 32 digest bytes as 64
lowercase hex characters; `str.encode()` is UTF-8.
-/

/-- A nibble as a lowercase hex character. -/
def hexDigit (n : Nat) : Char :=
  if n < 10 then Char.ofNat (48 + n) else Char.ofNat (87 + n)

/-- Bytes as lowercase hex characters, two per byte, high nibble first. -/
def hexChars : List Nat → List Char
  | [] => []
  | b :: bs => hexDigit (b / 16) :: hexDigit (b % 16) :: hexChars bs

/-- Model of `hashlib`'s `hexdigest()`: the digest bytes in lowercase hex. -/
def hexdigest (bs : List Nat) : String := String.mk (hexChars bs)

/-- Taking `2 * k` hex characters is hex-encoding the first `k` bytes. -/
theorem hexChars_take (l : List Nat) (k : Nat) :
    (hexChars l).take (2 * k) = hexChars (l.take k) := by
  induction l generalizing k with
  | nil => simp [hexChars]
  | cons b bs ih =>
      cases k with
      | zero => simp [hexChars]
      | succ k =>
          have h2 : 2 * (k + 1) = (2 * k) + 1 + 1 := by ring
          simp [hexChars, h2, List.take_succ_cons, ih]

/-- UTF-8 encoding of one Unicode scalar value (`str.encode()` per char). -/
def utf8Char (c : Char) : List Nat :=
  let n := c.toNat
  if n < 128 then [n]
  else if n < 2048 then [192 + n / 64, 128 + n % 64]
  else if n < 65536 then [224 + n / 4096, 128 + (n / 64) % 64, 128 + n % 64]
  else [240 + n / 262144, 128 + (n / 4096) % 64, 128 + (n / 64) % 64, 128 + n % 64]

/-- UTF-8 encoding of a character list. -/
def utf8Chars : List Char → List Nat
  | [] => []
  | c :: cs => utf8Char c ++ utf8Chars cs

/-- Python's `str.encode()`: the UTF-8 bytes of a string. -/
def utf8 (s : String) : List Nat := utf8Chars s.data

/-! ## Python JSON values and `json.dumps`

The cache key is built from `json.dumps(data, sort_keys=True)`
(`cache_service.py:48`).  `PyJson` models the Python values that appear in
the handlers' `cache_key_data` dictionaries: `None`, booleans, `int`s,
`float`s, strings, lists and string-keyed dicts.  A float is carried as the
decimal literal `repr` produces for it, which is how `json.dumps` prints it;
no claim computes with float values, only with their serialized form.
-/

inductive PyJson where
  | null
  | bool (b : Bool)
  | int (n : Int)
  | float (lit : String)
  | str (s : String)
  | arr (elems : List PyJson)
  | obj (fields : List (String × PyJson))

/-- Four lowercase hex characters of a code unit, for `\uXXXX` escapes. -/
def hex4 (n : Nat) : List Char :=
  [hexDigit (n / 4096 % 16), hexDigit (n / 256 % 16), hexDigit (n / 16 % 16), hexDigit (n % 16)]

/-- Model of `json.dumps` escaping of one character with `ensure_ascii=True` (the
default): `"` and `\` get a backslash, the five short control escapes are
used, every other character outside `0x20..0x7e` becomes `\uXXXX`, with a
surrogate pair above `0xFFFF`. -/
def escChar (c : Char) : List Char :=
  let n := c.toNat
  if n = 34 then ['\\', '"']
  else if n = 92 then ['\\', '\\']
  else if n = 10 then ['\\', 'n']
  else if n = 13 then ['\\', 'r']
  else if n = 9 then ['\\', 't']
  else if n = 8 then ['\\', 'b']
  else if n = 12 then ['\\', 'f']
  else if 32 ≤ n ∧ n ≤ 126 then [c]
  else if n < 65536 then '\\' :: 'u' :: hex4 n
  else ('\\' :: 'u' :: hex4 (55296 + (n - 65536) / 1024))
       ++ ('\\' :: 'u' :: hex4 (56320 + (n - 65536) % 1024))

/-- Escape every character of a string body. -/
def escChars : List Char → List Char
  | [] => []
  | c :: cs => escChar c ++ escChars cs

/-- A JSON string literal: quoted, escaped. -/
def encStr (s : String) : String :=
  String.mk ('"' :: (escChars s.data ++ ['"']))

mutual

/-- Serialize a `PyJson` tree whose object fields are already in the order
they are to be printed, with `json.dumps`'s default separators
`", "` and `": "`. -/
def serializePlain : PyJson → String
  | .null => ("null")
  | .bool true => ("true")
  | .bool false => ("false")
  | .int n => toString n
  | .float lit => lit
  | .str s => encStr s
  | .arr xs => ("[") ++ serializeItems xs ++ ("]")
  | .obj fs => ("\x7b") ++ serializeMembers fs ++ ("\x7d")

/-- Array elements joined by `", "`. -/
def serializeItems : List PyJson → String
  | [] => ("")
  | [x] => serializePlain x
  | x :: y :: xs => serializePlain x ++ (", ") ++ serializeItems (y :: xs)

/-- Object members `"key": value` joined by `", "`. -/
def serializeMembers : List (String × PyJson) → String
  | [] => ("")
  | [kv] => encStr kv.1 ++ (": ") ++ serializePlain kv.2
  | kv :: m :: fs => encStr kv.1 ++ (": ") ++ serializePlain kv.2 ++ (", ") ++ serializeMembers (m :: fs)

end

/-- The key order used by `sort_keys=True`: Python's `sorted(dict.items())`,
which for the unique keys of a dict is ordering by key. -/
def pairLe (a b : String × PyJson) : Prop := a.1 ≤ b.1

instance : DecidableRel pairLe := fun a b => inferInstanceAs (Decidable (a.1 ≤ b.1))

instance : IsTotal (String × PyJson) pairLe := ⟨fun a b => le_total a.1 b.1⟩

instance : IsTrans (String × PyJson) pairLe := ⟨fun _ _ _ hab hbc => le_trans hab hbc⟩

/-- Sort object members by key (modelling Python's `sorted(d.items())`). -/
def sortPairs (l : List (String × PyJson)) : List (String × PyJson) :=
  List.insertionSort pairLe l

mutual

/-- Reorder every object's fields as `sort_keys=True` prints them: sort by
key at each level, recursively. -/
def sortJson : PyJson → PyJson
  | .arr xs => .arr (sortJsonList xs)
  | .obj fs => .obj (sortPairs (sortJsonFields fs))
  | x => x

/-- Apply `sortJson` to each array element. -/
def sortJsonList : List PyJson → List PyJson
  | [] => []
  | x :: xs => sortJson x :: sortJsonList xs

/-- Apply `sortJson` to each field value. -/
def sortJsonFields : List (String × PyJson) → List (String × PyJson)
  | [] => []
  | kv :: fs => (kv.1, sortJson kv.2) :: sortJsonFields fs

end

/-- Model of `json.dumps(v)` with default arguments (insertion order kept). -/
def json_dumps (v : PyJson) : String := serializePlain v

/-- Model of `json.dumps(v, sort_keys=True)`: keys sorted lexicographically at every
level, then serialized.  (The source sorts while encoding; extensionally
that is serializing the key-sorted tree.) -/
def json_dumps_sorted (v : PyJson) : String := serializePlain (sortJson v)

/-! ## Cache-key derivation

`CacheService._generate_key` (`cache_service.py:46-50`):
`json.dumps(data, sort_keys=True)`, SHA-256 of its UTF-8 bytes, hex digest
truncated to 16 characters, prefixed with the namespace and `":"`.
-/

/-- The 16-character truncation of the hex digest of the serialized data
(`hashlib.sha256(data_str.encode()).hexdigest()[:16]`). -/
def truncDigest (data : List (String × PyJson)) : List Char :=
  (hexChars (sha256 (utf8 (json_dumps_sorted (PyJson.obj data))))).take 16

/-- Model of `CacheService._generate_key(prefix, data)`: namespace, `":"`, truncated
digest. -/
def generate_key (ns : String) (data : List (String × PyJson)) : String :=
  ns ++ (":") ++ String.mk (truncDigest data)

/-! ## The cache store (`cache_service.py`)

The Redis backend is modelled as an association list of
`(key, value, expiresAt)` entries with a logical clock (`ex=ttl` sets the
expiry; an expired key reads as absent).  `CacheService._redis` being `None`
(never connected, or `connect()` failed) is the `none` connection; a raised
backend exception is modelled by the `raises` flag, since each method's
`try/except` turns any raise into its fallback result.
-/

/-- Configuration defaults from `config.Settings`. -/
structure Settings where
  rate_limit_per_minute : Nat := 10
  cache_ttl_seconds : Nat := 3600
deriving DecidableEq

/-- The Redis store: entries `(key, value, expiresAt)` plus a clock. -/
structure RedisState where
  entries : List (String × String × Nat)
  now : Nat
deriving DecidableEq

/-- Redis `GET`: the value if the key exists and has not expired. -/
def redis_get (st : RedisState) (k : String) : Option String :=
  match st.entries.find? (fun e => e.1 == k) with
  | some e => if st.now < e.2.2 then some e.2.1 else none
  | none => none

/-- Redis `SET key value EX ttl`: store with expiry `now + ttl`. -/
def redis_set (st : RedisState) (k v : String) (ttl : Nat) : RedisState :=
  { entries := (k, v, st.now + ttl) :: st.entries.filter (fun e => !(e.1 == k)),
    now := st.now }

/-- Redis `DEL key`. -/
def redis_del (st : RedisState) (k : String) : RedisState :=
  { entries := st.entries.filter (fun e => !(e.1 == k)), now := st.now }

/-- Let `d` time units pass on the store's clock. -/
def advance (st : RedisState) (d : Nat) : RedisState :=
  { st with now := st.now + d }

/-- Python's `ttl = ttl or settings.cache_ttl_seconds`: `None` — and, by
falsiness, `0` — fall back to the configured default. -/
def effectiveTtl (ttl : Option Nat) (dflt : Nat) : Nat :=
  match ttl with
  | none => dflt
  | some t => if t = 0 then dflt else t

/-- Model of `CacheService.get` (`cache_service.py:52-67`): absent when disconnected;
on a raise the `except` returns absent; a present value is returned only if
truthy (`if cached:`), so an empty cached string also reads as a miss. -/
def cache_get (conn : Option RedisState) (raises : Bool) (ns : String)
    (data : List (String × PyJson)) : Option String :=
  match conn with
  | none => none
  | some st =>
      let k := generate_key ns data
      if raises then none
      else
        match redis_get st k with
        | some c => if c == ("") then none else some c
        | none => none

/-- Model of `CacheService.set` (`cache_service.py:69-87`): skip when disconnected;
on a raise the `except` leaves the store as it was. -/
def cache_set (s : Settings) (conn : Option RedisState) (raises : Bool) (ns : String)
    (data : List (String × PyJson)) (response : String) (ttl : Option Nat) :
    Option RedisState :=
  match conn with
  | none => none
  | some st =>
      let k := generate_key ns data
      let t := effectiveTtl ttl s.cache_ttl_seconds
      if raises then some st else some (redis_set st k response t)

/-- Model of `CacheService.delete` (`cache_service.py:89-99`). -/
def cache_delete (conn : Option RedisState) (raises : Bool) (ns : String)
    (data : List (String × PyJson)) : Option RedisState :=
  match conn with
  | none => none
  | some st =>
      let k := generate_key ns data
      if raises then some st else some (redis_del st k)

/-- Model of `CacheService.clear_prefix` (`cache_service.py:101-116`): delete every
key matching `"{ns}:*"` and return how many there were; `0` when
disconnected or on a raise. -/
def cache_clear_ns (conn : Option RedisState) (raises : Bool) (ns : String) :
    Nat × Option RedisState :=
  match conn with
  | none => (0, none)
  | some st =>
      if raises then (0, some st)
      else
        let hit := st.entries.filter (fun e => (ns ++ (":")).isPrefixOf e.1)
        (hit.length,
         some { entries := st.entries.filter (fun e => !((ns ++ (":")).isPrefixOf e.1)),
                now := st.now })

/-! ## Credentials and authentication (`models/api_key.py`, `core/auth.py`)

A credential row holds only the SHA-256 hash of the raw key plus a display
slice (source field `key_prefix`, spelled `keyPrefix` here).  The database
is a row list; `scalar_one_or_none` raising on two matching rows is a
server error, as is an uncaught commit failure (FastAPI's global handler
turns both into a 500).
-/

/-- The `api_keys` row (`models/api_key.py`); times are logical instants. -/
structure APIKey where
  id : String
  name : String
  keyPrefix : String
  key_hash : String
  is_active : Bool
  rate_limit_per_minute : Int
  last_used_at : Option Nat
deriving DecidableEq

/-- Model of `api_key_service.hash_key`: full SHA-256 hex digest of the raw key. -/
def hash_key (key : String) : String := hexdigest (sha256 (utf8 key))

/-- Model of `api_key_service.get_api_key_by_raw_key`: select the row whose stored
hash equals the hash of the raw key; `scalar_one_or_none` yields `none` for
no row, the row for exactly one, and raises (outer `none`) for several. -/
def get_api_key_by_raw_key (db : List APIKey) (raw : String) :
    Option (Option APIKey) :=
  match db.filter (fun k => k.key_hash == hash_key raw) with
  | [] => some none
  | [k] => some (some k)
  | _ => none

/-- Model of `api_key_service.update_last_used`: stamp `last_used_at` and commit. -/
def update_last_used (k : APIKey) (now : Nat) : APIKey :=
  { k with last_used_at := some now }

/-- What the caller of `get_api_key` observes. -/
inductive AuthOutcome where
  | httpError (status : Nat) (detail : String)
  | serverError
  | success (key : APIKey)
deriving DecidableEq

/-- Model of `auth.get_api_key` (`core/auth.py:17-53`): `if not api_key` rejects a
missing or empty header as 401/missing; an unknown hash as 401/invalid; an
inactive row as 403; then `update_last_used` is awaited inline — its commit
failing (`stampFails`) propagates out of the dependency and fails the
request — and the stamped row is returned. -/
def get_api_key (db : List APIKey) (header : Option String) (now : Nat)
    (stampFails : Bool) : AuthOutcome :=
  match header with
  | none => AuthOutcome.httpError 401 ("Missing API key")
  | some raw =>
      if raw = ("") then AuthOutcome.httpError 401 ("Missing API key")
      else
        match get_api_key_by_raw_key db raw with
        | none => AuthOutcome.serverError
        | some none => AuthOutcome.httpError 401 ("Invalid API key")
        | some (some k) =>
            if !k.is_active then AuthOutcome.httpError 403 ("API key is inactive")
            else if stampFails then AuthOutcome.serverError
            else AuthOutcome.success (update_last_used k now)

/-! ## Usage recording (`services/usage_service.py`) -/

/-- The `usage_records` row (`models/usage.py`). -/
structure UsageRecord where
  api_key_id : String
  endpoint : String
  prompt_tokens : Int
  completion_tokens : Int
  tokens_used : Int
deriving DecidableEq

/-- Model of `usage_service.record_usage` (`usage_service.py:12-32`): build the row
with `tokens_used = prompt_tokens + completion_tokens`, append it, return
it.  Python ints are `Int`; the source's defaults are both `0`. -/
def record_usage (rows : List UsageRecord) (key : APIKey) (endpoint : String)
    (prompt_tokens completion_tokens : Int) :
    UsageRecord × List UsageRecord :=
  let u : UsageRecord :=
    { api_key_id := key.id, endpoint := endpoint,
      prompt_tokens := prompt_tokens, completion_tokens := completion_tokens,
      tokens_used := prompt_tokens + completion_tokens }
  (u, rows ++ [u])

/-! ## Rate limiting (`core/rate_limit.py`)

`limiter = Limiter(key_func=get_remote_address)`: slowapi hashes each
request to a bucket by the configured key function, which here is the
client's network address; the per-minute budget comes from the global
settings (`get_rate_limit`), not from the credential row.
-/

/-- What of a request the limiter can key on: its network origin and the
credential attached by authentication (if any). -/
structure RequestCtx where
  remote_addr : String
  apiKeyId : Option String
deriving DecidableEq

/-- Model of `slowapi.util.get_remote_address`: the client address. -/
def get_remote_address (r : RequestCtx) : String := r.remote_addr

/-- The limiter's key function, as wired in `rate_limit.py:6`. -/
def limiter_key_func : RequestCtx → String := get_remote_address

/-- Model of `rate_limit.get_rate_limit`: the global per-minute budget string. -/
def get_rate_limit (s : Settings) : String :=
  toString s.rate_limit_per_minute ++ ("/minute")

/-! ## The cached request handlers (`api/v1/chat.py`, `summarize.py`, `translate.py`)

Each handler runs after validation, authentication and rate limiting:
compute `cache_key_data`, try the cache, on a hit `json.loads` the entry and
return it; on a miss call upstream, cache the serialized response, record
usage with the provider-reported token counts, and return; upstream
exceptions map through the shared `except` ladder.  The upstream call's
outcome is a handler input (`Except`); a returned response is modelled by
its serialized body, which is also exactly what the handler caches.
-/

/-- The upstream failure kinds the handlers distinguish (`openai`'s
`AuthenticationError`, `RateLimitError`, `APIConnectionError`, and the
`except Exception` catch-all). -/
inductive UpstreamError where
  | authenticationError
  | rateLimitError
  | apiConnectionError
  | other (msg : String)
deriving DecidableEq

/-- The `except` ladder shared by the three handlers (`chat.py:74-97`):
status code and caller-visible detail per upstream failure kind. -/
def mapUpstreamError : UpstreamError → Nat × String
  | .authenticationError => (500, ("AI service configuration error"))
  | .rateLimitError => (429, ("AI service is busy, please try again later"))
  | .apiConnectionError => (503, ("AI service temporarily unavailable"))
  | .other _ => (500, ("An unexpected error occurred"))

/-- What one request to a cached operation produces: a 200 body (the
serialized response) or an `HTTPException`. -/
inductive ApiResult where
  | ok (body : String)
  | err (status : Nat) (detail : String)
deriving DecidableEq

/-- The state a handler touches: settings, the cache connection (with its
failure flag for this request's cache calls) and the usage table. -/
structure HandlerCtx where
  settings : Settings
  cache : Option RedisState
  cacheRaises : Bool
  usage : List UsageRecord
deriving DecidableEq

/-- Python's `d.get(k, default)` on a string-keyed int dict
(`response.usage.get("prompt_tokens", 0)`). -/
def dictGetInt (d : List (String × Int)) (k : String) (dflt : Int) : Int :=
  match d.find? (fun e => e.1 == k) with
  | some e => e.2
  | none => dflt

/-- The common body of the three cached handlers: cache lookup, on a hit
return the deserialized entry at once (no usage row); on a miss the
upstream outcome either maps through the `except` ladder or is cached and
recorded.  `respBody` is the serialization the handler caches and returns;
`respUsage` its `usage` dict. -/
def handleCachedOp (ρ : Type) (ns endpoint : String)
    (keyData : List (String × PyJson))
    (respBody : ρ → String) (respUsage : ρ → List (String × Int))
    (ctx : HandlerCtx) (key : APIKey) (upstream : Except UpstreamError ρ) :
    ApiResult × HandlerCtx :=
  match cache_get ctx.cache ctx.cacheRaises ns keyData with
  | some cached => (ApiResult.ok cached, ctx)
  | none =>
      match upstream with
      | .error e =>
          (ApiResult.err (mapUpstreamError e).1 (mapUpstreamError e).2, ctx)
      | .ok resp =>
          let raw := respBody resp
          let cache2 := cache_set ctx.settings ctx.cache ctx.cacheRaises ns keyData raw none
          let rec2 := record_usage ctx.usage key endpoint
            (dictGetInt (respUsage resp) ("prompt_tokens") 0)
            (dictGetInt (respUsage resp) ("completion_tokens") 0)
          (ApiResult.ok raw,
           { settings := ctx.settings, cache := cache2,
             cacheRaises := ctx.cacheRaises, usage := rec2.2 })

/-- Model of `schemas.chat.ChatMessage`. -/
structure ChatMessage where
  role : String
  content : String
deriving DecidableEq

/-- Model of `schemas.chat.ChatRequest`; `temperature` is a float, carried as its
decimal repr. -/
structure ChatRequest where
  messages : List ChatMessage
  model : String
  max_tokens : Int
  temperature : String
deriving DecidableEq

/-- Model of `schemas.chat.ChatResponse`; `usage` is a string-keyed int dict. -/
structure ChatResponse where
  message : ChatMessage
  model : String
  usage : List (String × Int)
deriving DecidableEq

/-- Model of `ChatMessage.model_dump()`: fields in declaration order. -/
def chatMessageJson (m : ChatMessage) : PyJson :=
  .obj [(("role"), .str m.role), (("content"), .str m.content)]

/-- The chat handler's `cache_key_data` dict (`chat.py:45-50`). -/
def chatCacheKeyData (r : ChatRequest) : List (String × PyJson) :=
  [(("messages"), .arr (r.messages.map chatMessageJson)),
   (("model"), .str r.model),
   (("max_tokens"), .int r.max_tokens),
   (("temperature"), .float r.temperature)]

/-- Model of `ChatResponse.model_dump()` as a JSON value. -/
def chatResponseJson (r : ChatResponse) : PyJson :=
  .obj [(("message"), chatMessageJson r.message),
        (("model"), .str r.model),
        (("usage"), .obj (r.usage.map (fun e => (e.1, PyJson.int e.2))))]

/-- The `"chat"` cache namespace. -/
def chatNs : String := ("chat")

/-- The chat usage endpoint tag. -/
def chatEndpoint : String := ("/api/v1/chat")

/-- Model of `chat.create_chat_completion` (`chat.py:22-97`), after auth and rate
limiting. -/
def create_chat_completion (ctx : HandlerCtx) (key : APIKey) (req : ChatRequest)
    (upstream : Except UpstreamError ChatResponse) : ApiResult × HandlerCtx :=
  handleCachedOp ChatResponse chatNs chatEndpoint (chatCacheKeyData req)
    (fun r => json_dumps (chatResponseJson r)) ChatResponse.usage ctx key upstream

/-- Model of `schemas.summarize.SummarizeRequest`. -/
structure SummarizeRequest where
  text : String
  max_length : Int
  style : String
deriving DecidableEq

/-- Model of `schemas.summarize.SummarizeResponse`. -/
structure SummarizeResponse where
  summary : String
  original_length : Int
  summary_length : Int
  model : String
  usage : List (String × Int)
deriving DecidableEq

/-- The summarize handler's `cache_key_data` dict (`summarize.py:49-53`). -/
def summarizeCacheKeyData (r : SummarizeRequest) : List (String × PyJson) :=
  [(("text"), .str r.text),
   (("max_length"), .int r.max_length),
   (("style"), .str r.style)]

/-- Model of `SummarizeResponse.model_dump()` as a JSON value. -/
def summarizeResponseJson (r : SummarizeResponse) : PyJson :=
  .obj [(("summary"), .str r.summary),
        (("original_length"), .int r.original_length),
        (("summary_length"), .int r.summary_length),
        (("model"), .str r.model),
        (("usage"), .obj (r.usage.map (fun e => (e.1, PyJson.int e.2))))]

/-- The `"summarize"` cache namespace. -/
def summarizeNs : String := ("summarize")

/-- The summarize usage endpoint tag. -/
def summarizeEndpoint : String := ("/api/v1/summarize")

/-- Model of `summarize.create_summary` (`summarize.py:21-100`), after auth and rate
limiting. -/
def create_summary (ctx : HandlerCtx) (key : APIKey) (req : SummarizeRequest)
    (upstream : Except UpstreamError SummarizeResponse) : ApiResult × HandlerCtx :=
  handleCachedOp SummarizeResponse summarizeNs summarizeEndpoint
    (summarizeCacheKeyData req)
    (fun r => json_dumps (summarizeResponseJson r)) SummarizeResponse.usage ctx key upstream

/-- Model of `schemas.translate.TranslateRequest`. -/
structure TranslateRequest where
  text : String
  source_language : String
  target_language : String
deriving DecidableEq

/-- Model of `schemas.translate.TranslateResponse`. -/
structure TranslateResponse where
  translated_text : String
  source_language : String
  target_language : String
  model : String
  usage : List (String × Int)
deriving DecidableEq

/-- The translate handler's `cache_key_data` dict (`translate.py:47-51`). -/
def translateCacheKeyData (r : TranslateRequest) : List (String × PyJson) :=
  [(("text"), .str r.text),
   (("source_language"), .str r.source_language),
   (("target_language"), .str r.target_language)]

/-- Model of `TranslateResponse.model_dump()` as a JSON value. -/
def translateResponseJson (r : TranslateResponse) : PyJson :=
  .obj [(("translated_text"), .str r.translated_text),
        (("source_language"), .str r.source_language),
        (("target_language"), .str r.target_language),
        (("model"), .str r.model),
        (("usage"), .obj (r.usage.map (fun e => (e.1, PyJson.int e.2))))]

/-- The `"translate"` cache namespace. -/
def translateNs : String := ("translate")

/-- The translate usage endpoint tag. -/
def translateEndpoint : String := ("/api/v1/translate")

/-- Model of `translate.create_translation` (`translate.py:21-98`), after auth and
rate limiting. -/
def create_translation (ctx : HandlerCtx) (key : APIKey) (req : TranslateRequest)
    (upstream : Except UpstreamError TranslateResponse) : ApiResult × HandlerCtx :=
  handleCachedOp TranslateResponse translateNs translateEndpoint
    (translateCacheKeyData req)
    (fun r => json_dumps (translateResponseJson r)) TranslateResponse.usage ctx key upstream

/-! ## Shared sample values for witnesses and counterexamples -/

/-- Default settings (`rate_limit_per_minute = 10`, `cache_ttl_seconds = 3600`). -/
def sampleSettings : Settings := {}

/-- A connected Redis store with no entries. -/
def emptyRedis : RedisState := { entries := [], now := 0 }

/-- A concrete credential row. -/
def sampleKey : APIKey :=
  { id := ("key-1"), name := ("test key"), keyPrefix := ("ai_12345"),
    key_hash := ("stored-hash"), is_active := true,
    rate_limit_per_minute := 10, last_used_at := none }

/-- A handler context with no cache connection and an empty usage table. -/
def noCacheCtx : HandlerCtx :=
  { settings := sampleSettings, cache := none, cacheRaises := false, usage := [] }

/-! ## Claim C10 -/

/-- C10: every Usage Record created by `record_usage` satisfies
`tokens_used = prompt_tokens + completion_tokens`, for all non-negative
prompt and completion token counts (the zero defaults included), and the
row is appended to the table. -/
theorem c10_tokens_used_is_sum (rows : List UsageRecord) (key : APIKey)
    (endpoint : String) (p c : Int) (hp : 0 ≤ p) (hc : 0 ≤ c) :
    ((record_usage rows key endpoint p c).1).tokens_used
      = ((record_usage rows key endpoint p c).1).prompt_tokens
        + ((record_usage rows key endpoint p c).1).completion_tokens ∧
    ((record_usage rows key endpoint p c).1).tokens_used = p + c ∧
    (record_usage rows key endpoint p c).2
      = rows ++ [(record_usage rows key endpoint p c).1] :=
  ⟨rfl, rfl, rfl⟩

/-- C10 witness: the invariant at a concrete call. -/
theorem c10_tokens_used_is_sum_witness :
    ((record_usage [] sampleKey chatEndpoint 3 5).1).tokens_used
      = ((record_usage [] sampleKey chatEndpoint 3 5).1).prompt_tokens
        + ((record_usage [] sampleKey chatEndpoint 3 5).1).completion_tokens ∧
    ((record_usage [] sampleKey chatEndpoint 3 5).1).tokens_used = 3 + 5 ∧
    (record_usage [] sampleKey chatEndpoint 3 5).2
      = [] ++ [(record_usage [] sampleKey chatEndpoint 3 5).1] :=
  c10_tokens_used_is_sum [] sampleKey chatEndpoint 3 5 (by decide) (by decide)

/-! ## Claim C9 -/

/-- C9 counterexample: two requests carrying the same credential but
arriving from different network origins get different limiter keys, so the
sliding-window limit is not keyed by the caller's credential even on
authenticated operations. -/
theorem c9_counterexample :
    (RequestCtx.mk ("10.0.0.1") (some ("key-1"))).apiKeyId
      = (RequestCtx.mk ("10.0.0.2") (some ("key-1"))).apiKeyId ∧
    limiter_key_func (RequestCtx.mk ("10.0.0.1") (some ("key-1")))
      ≠ limiter_key_func (RequestCtx.mk ("10.0.0.2") (some ("key-1"))) :=
  ⟨rfl, by decide⟩

/-- C9 (amended): the sliding-window per-minute rate limit is keyed by the
request's network origin (`get_remote_address`) for every operation,
authenticated ones included, and its budget is the global
`"{settings.rate_limit_per_minute}/minute"` string, not the per-credential
limit. -/
theorem c9_limiter_keyed_by_origin (r : RequestCtx) (s : Settings) :
    limiter_key_func r = get_remote_address r ∧
    limiter_key_func r = r.remote_addr ∧
    get_rate_limit s = toString s.rate_limit_per_minute ++ ("/minute") :=
  ⟨rfl, rfl, rfl⟩

/-! ## Claim C4 -/

/-- C4: when a cached operation's cache lookup misses and the upstream call
fails, the raised upstream error kind maps to exactly one caller-visible
outcome: upstream authentication failure → 500 configuration error;
upstream rate limit → 429 service busy; upstream connection failure → 503
service unavailable; any other exception → 500 with an opaque message. -/
theorem c4_upstream_error_mapping (ρ : Type) (ns endpoint : String)
    (keyData : List (String × PyJson)) (respBody : ρ → String)
    (respUsage : ρ → List (String × Int)) (ctx : HandlerCtx) (key : APIKey)
    (e : UpstreamError)
    (hmiss : cache_get ctx.cache ctx.cacheRaises ns keyData = none) :
    handleCachedOp ρ ns endpoint keyData respBody respUsage ctx key (Except.error e)
      = (ApiResult.err (mapUpstreamError e).1 (mapUpstreamError e).2, ctx) ∧
    mapUpstreamError UpstreamError.authenticationError
      = (500, ("AI service configuration error")) ∧
    mapUpstreamError UpstreamError.rateLimitError
      = (429, ("AI service is busy, please try again later")) ∧
    mapUpstreamError UpstreamError.apiConnectionError
      = (503, ("AI service temporarily unavailable")) ∧
    (∀ msg : String, mapUpstreamError (UpstreamError.other msg)
      = (500, ("An unexpected error occurred"))) := by
  refine ⟨?_, rfl, rfl, rfl, fun _ => rfl⟩
  unfold handleCachedOp
  rw [hmiss]

/-- C4 witness: the chat handler with no cache connection and a failing
upstream surfaces the mapped error. -/
theorem c4_upstream_error_mapping_witness :
    handleCachedOp ChatResponse chatNs chatEndpoint [] (fun _ => ("")) ChatResponse.usage
        noCacheCtx sampleKey (Except.error UpstreamError.rateLimitError)
      = (ApiResult.err (mapUpstreamError UpstreamError.rateLimitError).1
          (mapUpstreamError UpstreamError.rateLimitError).2, noCacheCtx) ∧
    mapUpstreamError UpstreamError.authenticationError
      = (500, ("AI service configuration error")) ∧
    mapUpstreamError UpstreamError.rateLimitError
      = (429, ("AI service is busy, please try again later")) ∧
    mapUpstreamError UpstreamError.apiConnectionError
      = (503, ("AI service temporarily unavailable")) ∧
    (∀ msg : String, mapUpstreamError (UpstreamError.other msg)
      = (500, ("An unexpected error occurred"))) :=
  c4_upstream_error_mapping ChatResponse chatNs chatEndpoint []
    (fun _ => ("")) ChatResponse.usage noCacheCtx sampleKey
    UpstreamError.rateLimitError rfl

/-! ## Claim C3 -/

/-- C3: with no cache connection, or when the backend raises, every cache
method degrades to a safe no-op — `get` returns absent, `set` and `delete`
leave the store as it was, `clear_prefix` returns `0` — and a `get` on a
never-written namespace/fields pair returns absent without error. -/
theorem c3_cache_degrades_safely (s : Settings) (st : RedisState) (raises : Bool)
    (ns : String) (data : List (String × PyJson)) (v : String) (ttl : Option Nat)
    (hnw : ∀ e ∈ st.entries, e.1 ≠ generate_key ns data) :
    cache_get none raises ns data = none ∧
    cache_get (some st) true ns data = none ∧
    cache_set s none raises ns data v ttl = none ∧
    cache_set s (some st) true ns data v ttl = some st ∧
    cache_delete none raises ns data = none ∧
    cache_delete (some st) true ns data = some st ∧
    cache_clear_ns none raises ns = (0, none) ∧
    cache_clear_ns (some st) true ns = (0, some st) ∧
    cache_get (some st) false ns data = none := by
  refine ⟨rfl, rfl, rfl, rfl, rfl, rfl, rfl, rfl, ?_⟩
  have hfind : st.entries.find? (fun e => e.1 == generate_key ns data) = none := by
    rw [List.find?_eq_none]
    intro e he
    simpa using hnw e he
  simp [cache_get, redis_get, hfind]

/-- C3 witness: the degraded behaviors at a concrete store. -/
theorem c3_cache_degrades_safely_witness :
    cache_get none false chatNs [] = none ∧
    cache_get (some emptyRedis) true chatNs [] = none ∧
    cache_set sampleSettings none false chatNs [] ("v") none = none ∧
    cache_set sampleSettings (some emptyRedis) true chatNs [] ("v") none = some emptyRedis ∧
    cache_delete none false chatNs [] = none ∧
    cache_delete (some emptyRedis) true chatNs [] = some emptyRedis ∧
    cache_clear_ns none false chatNs = (0, none) ∧
    cache_clear_ns (some emptyRedis) true chatNs = (0, some emptyRedis) ∧
    cache_get (some emptyRedis) false chatNs [] = none :=
  c3_cache_degrades_safely sampleSettings emptyRedis false chatNs [] ("v") none
    (by simp [emptyRedis])

/-! ## Claim C6 -/

/-- C6 counterexample: caching the empty string succeeds, but the following
`get` on the same namespace and fields returns absent instead of the stored
value, because `if cached:` treats the empty string as a miss — so "after
`set(ns, fields, v)`, `get(ns, fields)` returns `v`" fails at `v = ""`. -/
theorem c6_counterexample :
    cache_set sampleSettings (some emptyRedis) false chatNs [] ("") none ≠ none ∧
    cache_get (cache_set sampleSettings (some emptyRedis) false chatNs [] ("") none)
      false chatNs [] = none ∧
    cache_get (cache_set sampleSettings (some emptyRedis) false chatNs [] ("") none)
      false chatNs [] ≠ some ("") := by
  refine ⟨by simp [cache_set], ?_, ?_⟩ <;>
    simp [cache_set, cache_get, redis_set, redis_get, emptyRedis, effectiveTtl,
      sampleSettings]

/-- C6 (amended): for every namespace, field mapping and non-empty value
`v`, once `set(ns, fields, v)` succeeds against a connected backend, a
`get(ns, fields)` any time before the TTL expires returns `v`. -/
theorem c6_set_then_get (s : Settings) (st : RedisState) (ns : String)
    (data : List (String × PyJson)) (v : String) (ttl : Option Nat) (d : Nat)
    (hv : v ≠ ("")) (hd : d < effectiveTtl ttl s.cache_ttl_seconds) :
    cache_get ((cache_set s (some st) false ns data v ttl).map (fun st2 => advance st2 d))
      false ns data = some v := by
  have hbeq : (v == ("")) = false := by
    simpa using hv
  show cache_get (some (advance (redis_set st (generate_key ns data) v
      (effectiveTtl ttl s.cache_ttl_seconds)) d)) false ns data = some v
  simp only [cache_get, redis_get, redis_set, advance]
  rw [List.find?_cons_of_pos _ (by simp)]
  simp [hbeq, hd]

/-- C6 witness: a concrete set-then-get round trip inside the TTL. -/
theorem c6_set_then_get_witness :
    cache_get ((cache_set sampleSettings (some emptyRedis) false chatNs [] ("resp") none).map
      (fun st2 => advance st2 10)) false chatNs [] = some ("resp") :=
  c6_set_then_get sampleSettings emptyRedis chatNs [] ("resp") none 10
    (by decide) (by decide)

/-! ## Claim C2 -/

/-- Lemma: `sortJsonFields` is the elementwise recursion into field values. -/
theorem sortJsonFields_eq_map (l : List (String × PyJson)) :
    sortJsonFields l = l.map (fun p => (p.1, sortJson p.2)) := by
  induction l with
  | nil => rfl
  | cons kv fs ih => simp [sortJsonFields, ih]

/-- Sorting by key sends two permutations of the same dict items (keys
unique, as in a Python dict) to the same list. -/
theorem sortPairs_eq_of_perm (l1 l2 : List (String × PyJson)) (hp : l1.Perm l2)
    (hnd : (l1.map Prod.fst).Nodup) : sortPairs l1 = sortPairs l2 := by
  have hperm1 : (sortPairs l1).Perm l1 := List.perm_insertionSort pairLe l1
  have hperm2 : (sortPairs l2).Perm l2 := List.perm_insertionSort pairLe l2
  have hPerm : (sortPairs l1).Perm (sortPairs l2) :=
    hperm1.trans (hp.trans hperm2.symm)
  have hs1 : List.Sorted pairLe (sortPairs l1) := List.sorted_insertionSort pairLe l1
  have hs2 : List.Sorted pairLe (sortPairs l2) := List.sorted_insertionSort pairLe l2
  have hnd1 : ((sortPairs l1).map Prod.fst).Nodup :=
    ((hperm1.map Prod.fst).nodup_iff).mpr hnd
  have hnd2' : (l2.map Prod.fst).Nodup := ((hp.map Prod.fst).nodup_iff).mp hnd
  have hnd2 : ((sortPairs l2).map Prod.fst).Nodup :=
    ((hperm2.map Prod.fst).nodup_iff).mpr hnd2'
  have hne1 : (sortPairs l1).Pairwise (fun a b => a.1 ≠ b.1) :=
    List.pairwise_map.mp hnd1
  have hne2 : (sortPairs l2).Pairwise (fun a b => a.1 ≠ b.1) :=
    List.pairwise_map.mp hnd2
  have hlt1 : List.Sorted (fun a b : String × PyJson => a.1 < b.1) (sortPairs l1) :=
    (hs1.and hne1).imp (fun hab => lt_of_le_of_ne hab.1 hab.2)
  have hlt2 : List.Sorted (fun a b : String × PyJson => a.1 < b.1) (sortPairs l2) :=
    (hs2.and hne2).imp (fun hab => lt_of_le_of_ne hab.1 hab.2)
  haveI : IsAntisymm (String × PyJson) (fun a b => a.1 < b.1) :=
    ⟨fun _ _ h1 h2 => absurd (lt_trans h1 h2) (lt_irrefl _)⟩
  exact List.eq_of_perm_of_sorted hPerm hlt1 hlt2

/-- C2: for every namespace and every pair of request field mappings with
the same key/value pairs (keys unique, as in a dict) in any insertion
order, `_generate_key` derives the same cache key. -/
theorem c2_cache_key_order_independent (ns : String)
    (d1 d2 : List (String × PyJson)) (hperm : d1.Perm d2)
    (hnd : (d1.map Prod.fst).Nodup) :
    generate_key ns d1 = generate_key ns d2 := by
  have hkey : sortPairs (sortJsonFields d1) = sortPairs (sortJsonFields d2) := by
    apply sortPairs_eq_of_perm
    · rw [sortJsonFields_eq_map, sortJsonFields_eq_map]
      exact hperm.map _
    · rw [sortJsonFields_eq_map]
      simpa [List.map_map, Function.comp_def] using hnd
  have hobj : sortJson (PyJson.obj d1) = sortJson (PyJson.obj d2) := by
    simp only [sortJson]
    exact congrArg PyJson.obj hkey
  simp only [generate_key, truncDigest, json_dumps_sorted, hobj]

/-- The chat key-data fields in one insertion order. -/
def c2fieldsA : List (String × PyJson) :=
  [(("model"), PyJson.str ("gpt-4")), (("temperature"), PyJson.float ("0.7"))]

/-- The same fields, inserted in the other order. -/
def c2fieldsB : List (String × PyJson) :=
  [(("temperature"), PyJson.float ("0.7")), (("model"), PyJson.str ("gpt-4"))]

/-- C2 witness: a concrete reordered pair derives the same key. -/
theorem c2_cache_key_order_independent_witness :
    generate_key chatNs c2fieldsA = generate_key chatNs c2fieldsB :=
  c2_cache_key_order_independent chatNs c2fieldsA c2fieldsB
    (List.Perm.swap _ _ _) (by decide)

/-! ## Claims C5 and C8 -/

/-- With the `unique=True` constraint on stored hashes (`models/api_key.py`),
at most one row matches a hash lookup. -/
theorem filter_hash_le_one (db : List APIKey) (c : String)
    (hnd : (db.map (fun k => k.key_hash)).Nodup) :
    (db.filter (fun k => k.key_hash == c)).length ≤ 1 := by
  induction db with
  | nil => simp
  | cons a l ih =>
      simp only [List.map_cons, List.nodup_cons] at hnd
      by_cases ha : (a.key_hash == c) = true
      · have hnil : l.filter (fun k => k.key_hash == c) = [] := by
          rw [List.filter_eq_nil_iff]
          intro x hx hxc
          exact hnd.1 (by
            rw [List.mem_map]
            refine ⟨x, hx, ?_⟩
            have h1 : a.key_hash = c := by simpa using ha
            have h2 : x.key_hash = c := by simpa using hxc
            rw [h2, h1])
        simp [List.filter_cons, ha, hnil]
      · simp only [List.filter_cons, ha, if_false, Bool.false_eq_true]
        exact ih hnd.2

/-- If `find?` locates a matching row and hashes are unique, that row is the
whole filter result. -/
theorem filter_eq_single_of_find? (db : List APIKey) (c : String) (k : APIKey)
    (hnd : (db.map (fun x => x.key_hash)).Nodup)
    (hf : db.find? (fun x => x.key_hash == c) = some k) :
    db.filter (fun x => x.key_hash == c) = [k] := by
  have hpk := List.find?_some hf
  have hmem : k ∈ db.filter (fun x => x.key_hash == c) := by
    rw [List.mem_filter]
    exact ⟨List.mem_of_find?_eq_some hf, hpk⟩
  have hlen := filter_hash_le_one db c hnd
  cases hfil : db.filter (fun x => x.key_hash == c) with
  | nil => rw [hfil] at hmem; simp at hmem
  | cons y ys =>
      rw [hfil] at hmem hlen
      cases ys with
      | nil =>
          have hky : k = y := by simpa using hmem
          rw [hky]
      | cons z zs => simp at hlen

/-- Under unique hashes, `scalar_one_or_none` never raises: the lookup is
exactly `find?` on the hash. -/
theorem get_api_key_by_raw_key_eq (db : List APIKey) (raw : String)
    (hnd : (db.map (fun x => x.key_hash)).Nodup) :
    get_api_key_by_raw_key db raw
      = some (db.find? (fun x => x.key_hash == hash_key raw)) := by
  unfold get_api_key_by_raw_key
  cases hf : db.find? (fun x => x.key_hash == hash_key raw) with
  | none =>
      have hnil : db.filter (fun x => x.key_hash == hash_key raw) = [] := by
        rw [List.filter_eq_nil_iff]
        intro x hx hxc
        exact absurd hxc (by simpa using List.find?_eq_none.mp hf x hx)
      rw [hnil]
  | some k =>
      rw [filter_eq_single_of_find? db (hash_key raw) k hnd hf]

/-- C5: authentication yields exactly one of three terminal failures or
success — a missing (or empty, by Python falsiness) credential is 401
"Missing API key"; a present credential whose hash matches no stored row is
401 "Invalid API key"; a matching but deactivated row is 403; otherwise the
(stamped) credential row is returned. -/
theorem c5_auth_trichotomy (db : List APIKey) (header : Option String)
    (now : Nat) (raw : String) (k : APIKey)
    (hnd : (db.map (fun x => x.key_hash)).Nodup) :
    (header = none ∨ header = some ("") →
      get_api_key db header now false = AuthOutcome.httpError 401 ("Missing API key")) ∧
    (header = some raw → raw ≠ ("") →
      (∀ x ∈ db, x.key_hash ≠ hash_key raw) →
      get_api_key db header now false = AuthOutcome.httpError 401 ("Invalid API key")) ∧
    (header = some raw → raw ≠ ("") →
      db.find? (fun x => x.key_hash == hash_key raw) = some k →
      k.is_active = false →
      get_api_key db header now false = AuthOutcome.httpError 403 ("API key is inactive")) ∧
    (header = some raw → raw ≠ ("") →
      db.find? (fun x => x.key_hash == hash_key raw) = some k →
      k.is_active = true →
      get_api_key db header now false = AuthOutcome.success (update_last_used k now)) := by
  refine ⟨?_, ?_, ?_, ?_⟩
  · rintro (rfl | rfl)
    · rfl
    · simp [get_api_key]
  · rintro rfl hraw hnone
    have hf : db.find? (fun x => x.key_hash == hash_key raw) = none := by
      rw [List.find?_eq_none]
      intro x hx
      simpa using hnone x hx
    simp [get_api_key, hraw, get_api_key_by_raw_key_eq db raw hnd, hf]
  · rintro rfl hraw hf hact
    simp [get_api_key, hraw, get_api_key_by_raw_key_eq db raw hnd, hf, hact]
  · rintro rfl hraw hf hact
    simp [get_api_key, hraw, get_api_key_by_raw_key_eq db raw hnd, hf, hact]

/-- A stored credential row whose hash is the hash of the raw key
`"secret"`. -/
def authKey : APIKey :=
  { id := ("key-2"), name := ("active key"), keyPrefix := ("ai_aaaaa"),
    key_hash := hash_key ("secret"), is_active := true,
    rate_limit_per_minute := 10, last_used_at := none }

/-- A credential table holding exactly `authKey`. -/
def authDb : List APIKey := [authKey]

/-- C5 witness: the trichotomy at a concrete table, taken at the success
branch, plus the missing-credential branch. -/
theorem c5_auth_trichotomy_witness :
    get_api_key authDb (some ("secret")) 7 false
      = AuthOutcome.success (update_last_used authKey 7) ∧
    get_api_key authDb none 7 false
      = AuthOutcome.httpError 401 ("Missing API key") := by
  have hnd : (authDb.map (fun x => x.key_hash)).Nodup := by simp [authDb]
  have hf : authDb.find? (fun x => x.key_hash == hash_key ("secret")) = some authKey := by
    simp [authDb, authKey]
  exact ⟨(c5_auth_trichotomy authDb (some ("secret")) 7 ("secret") authKey hnd).2.2.2
      rfl (by decide) hf rfl,
    (c5_auth_trichotomy authDb none 7 ("secret") authKey hnd).1 (Or.inl rfl)⟩

/-- C8 counterexample: with a valid, active credential, a failure of the
last-used stamp fails the whole request — `get_api_key` awaits
`update_last_used` inline and its uncaught commit error propagates — so the
stamp is neither best-effort nor off the response's critical path. -/
theorem c8_counterexample :
    get_api_key authDb (some ("secret")) 7 true = AuthOutcome.serverError ∧
    (∀ x : APIKey, get_api_key authDb (some ("secret")) 7 true ≠ AuthOutcome.success x) := by
  have h : get_api_key authDb (some ("secret")) 7 true = AuthOutcome.serverError := by
    simp [get_api_key, get_api_key_by_raw_key, authDb, authKey, List.filter_cons]
  exact ⟨h, fun x => by rw [h]; simp⟩

/-- C8 (amended): on successful authentication the last-used stamp is
performed synchronously before the credential is returned: if the stamp's
commit succeeds the stamped row is returned, and if it fails the failure
propagates and the request fails as a server error. -/
theorem c8_stamp_on_critical_path (db : List APIKey) (raw : String) (now : Nat)
    (k : APIKey) (hnd : (db.map (fun x => x.key_hash)).Nodup) (hraw : raw ≠ (""))
    (hf : db.find? (fun x => x.key_hash == hash_key raw) = some k)
    (hact : k.is_active = true) :
    get_api_key db (some raw) now false = AuthOutcome.success (update_last_used k now) ∧
    get_api_key db (some raw) now true = AuthOutcome.serverError := by
  constructor
  · simp [get_api_key, hraw, get_api_key_by_raw_key_eq db raw hnd, hf, hact]
  · simp [get_api_key, hraw, get_api_key_by_raw_key_eq db raw hnd, hf, hact]

/-- C8 witness: the amended behavior at the concrete table. -/
theorem c8_stamp_on_critical_path_witness :
    get_api_key authDb (some ("secret")) 9 false
      = AuthOutcome.success (update_last_used authKey 9) ∧
    get_api_key authDb (some ("secret")) 9 true = AuthOutcome.serverError :=
  c8_stamp_on_critical_path authDb ("secret") 9 authKey
    (by simp [authDb]) (by decide) (by simp [authDb, authKey]) rfl

/-! ## Claim C1 -/

/-- A concrete chat request. -/
def c1req : ChatRequest :=
  { messages := [{ role := ("user"), content := ("hi") }],
    model := ("gpt-3.5-turbo"), max_tokens := 1000, temperature := ("0.7") }

/-- The serialized response sitting in the cache for `c1req`. -/
def c1raw : String := ("cached-response")

/-- A handler context whose cache already holds `c1req`'s entry and whose
usage table is empty. -/
def c1ctx : HandlerCtx :=
  { settings := sampleSettings,
    cache := some { entries := [(generate_key chatNs (chatCacheKeyData c1req), c1raw, 1)],
                    now := 0 },
    cacheRaises := false, usage := [] }

/-- C1 counterexample: on a cache hit the chat handler returns the cached
response immediately — even with a failing upstream — but appends NO usage
row at all, so no zero-token Usage Record with the endpoint tag is
recorded. -/
theorem c1_counterexample :
    (create_chat_completion c1ctx sampleKey c1req
        (Except.error UpstreamError.rateLimitError)).1 = ApiResult.ok c1raw ∧
    ((create_chat_completion c1ctx sampleKey c1req
        (Except.error UpstreamError.rateLimitError)).2).usage = [] ∧
    ¬ ∃ u : UsageRecord,
      ((create_chat_completion c1ctx sampleKey c1req
          (Except.error UpstreamError.rateLimitError)).2).usage
        = c1ctx.usage ++ [u] := by
  have hhit : cache_get c1ctx.cache c1ctx.cacheRaises chatNs (chatCacheKeyData c1req)
      = some c1raw := by
    simp [c1ctx, cache_get, redis_get, c1raw]
  have hrun : create_chat_completion c1ctx sampleKey c1req
      (Except.error UpstreamError.rateLimitError) = (ApiResult.ok c1raw, c1ctx) := by
    unfold create_chat_completion handleCachedOp
    rw [hhit]
  refine ⟨by rw [hrun], by rw [hrun]; rfl, ?_⟩
  rintro ⟨u, hu⟩
  rw [hrun] at hu
  simp [c1ctx] at hu

/-- C1 (amended): for every cached operation, when the cache lookup hits,
the handler deserializes and returns the cached entry immediately, with no
upstream call consumed, no cache write, and no usage row recorded — the
handler state is unchanged. -/
theorem c1_cache_hit_returns_immediately (ρ : Type) (ns endpoint : String)
    (keyData : List (String × PyJson)) (respBody : ρ → String)
    (respUsage : ρ → List (String × Int)) (ctx : HandlerCtx) (key : APIKey)
    (upstream : Except UpstreamError ρ) (raw : String)
    (hhit : cache_get ctx.cache ctx.cacheRaises ns keyData = some raw) :
    handleCachedOp ρ ns endpoint keyData respBody respUsage ctx key upstream
      = (ApiResult.ok raw, ctx) := by
  unfold handleCachedOp
  rw [hhit]

/-- C1 witness: the amended behavior at the concrete pre-populated cache. -/
theorem c1_cache_hit_returns_immediately_witness :
    handleCachedOp ChatResponse chatNs chatEndpoint (chatCacheKeyData c1req)
        (fun r => json_dumps (chatResponseJson r)) ChatResponse.usage
        c1ctx sampleKey (Except.error UpstreamError.apiConnectionError)
      = (ApiResult.ok c1raw, c1ctx) :=
  c1_cache_hit_returns_immediately ChatResponse chatNs chatEndpoint
    (chatCacheKeyData c1req) (fun r => json_dumps (chatResponseJson r))
    ChatResponse.usage c1ctx sampleKey (Except.error UpstreamError.apiConnectionError)
    c1raw (by simp [c1ctx, cache_get, redis_get, c1raw])

/-! ## Claim C7 -/

/-- A byte list read as a base-256 numeral, low byte first. -/
def bytesToNat : List Nat → Nat
  | [] => 0
  | b :: bs => b + 256 * bytesToNat bs

/-- The numeral of a byte list is bounded by `256 ^ length`. -/
theorem bytesToNat_lt (l : List Nat) (h : ∀ b ∈ l, b < 256) :
    bytesToNat l < 256 ^ l.length := by
  induction l with
  | nil => simp [bytesToNat]
  | cons b bs ih =>
      have hb : b < 256 := h b (by simp)
      have hr : bytesToNat bs < 256 ^ bs.length := ih (fun x hx => h x (by simp [hx]))
      simp only [bytesToNat, List.length_cons, pow_succ]
      nlinarith [hr, hb]

/-- Equal numerals of equal-length byte lists force equal lists. -/
theorem bytesToNat_inj (l1 : List Nat) : ∀ (l2 : List Nat),
    l1.length = l2.length → (∀ b ∈ l1, b < 256) → (∀ b ∈ l2, b < 256) →
    bytesToNat l1 = bytesToNat l2 → l1 = l2 := by
  induction l1 with
  | nil =>
      intro l2 hlen _ _ _
      cases l2 with
      | nil => rfl
      | cons c cs => simp at hlen
  | cons b bs ih =>
      intro l2 hlen h1 h2 heq
      cases l2 with
      | nil => simp at hlen
      | cons c cs =>
          simp only [bytesToNat] at heq
          have hb : b < 256 := h1 b (by simp)
          have hc : c < 256 := h2 c (by simp)
          have hbc : b = c := by omega
          have hrest : bytesToNat bs = bytesToNat cs := by omega
          have hcs := ih cs (by simpa using hlen)
            (fun x hx => h1 x (by simp [hx])) (fun x hx => h2 x (by simp [hx])) hrest
          rw [hbc, hcs]

/-- The serialized, UTF-8-encoded bytes `_generate_key` hashes. -/
def keyMsg (d : List (String × PyJson)) : List Nat :=
  utf8 (json_dumps_sorted (PyJson.obj d))

/-- The 16 truncated hex characters are exactly the hex encoding of the
first 8 digest bytes. -/
theorem truncDigest_eq (d : List (String × PyJson)) :
    truncDigest d = hexChars ((sha256 (keyMsg d)).take 8) := by
  have h := hexChars_take (sha256 (keyMsg d)) 8
  unfold truncDigest keyMsg
  simpa using h

/-- The first 8 digest bytes of a key's hash, as a number below `256 ^ 8`. -/
def truncVal (d : List (String × PyJson)) : Nat :=
  bytesToNat ((sha256 (keyMsg d)).take 8)

/-- The truncated digest value is bounded. -/
theorem truncVal_lt (d : List (String × PyJson)) : truncVal d < 256 ^ 8 := by
  have h8 : ((sha256 (keyMsg d)).take 8).length = 8 := by
    rw [List.length_take, sha256_length]
    norm_num
  have hlt := bytesToNat_lt ((sha256 (keyMsg d)).take 8)
    (fun b hb => sha256_byte_lt (List.take_subset _ _ hb))
  rw [h8] at hlt
  exact hlt

/-- Agreement of the first 8 digest bytes forces equal derived keys. -/
theorem generate_key_eq_of_take8 (ns : String) (d1 d2 : List (String × PyJson))
    (h : (sha256 (keyMsg d1)).take 8 = (sha256 (keyMsg d2)).take 8) :
    generate_key ns d1 = generate_key ns d2 := by
  unfold generate_key
  rw [truncDigest_eq, truncDigest_eq, h]

/-- The single-field mapping `{"text": "aaa…a"}` with `n` characters. -/
def c7data (n : Nat) : List (String × PyJson) :=
  [(("text"), PyJson.str (String.mk (List.replicate n ('a'))))]

/-- The key's truncated digest value as a point of the finite codomain
`Fin (256 ^ 8)`, over the infinite family `c7data`. -/
def c7fin (n : Nat) : Fin (256 ^ 8) := ⟨truncVal (c7data n), truncVal_lt (c7data n)⟩

/-- C7 counterexample: it is false that any two field mappings with the
same fields but a differing value always derive distinct cache keys — the
keys live in the finite set of 16-hex-character truncations while the
mappings are unbounded, so two mappings differing in the `"text"` value
must collide (pigeonhole; the collision exists, though no feasible witness
can be printed). -/
theorem c7_counterexample :
    ¬ (∀ (ns : String) (d1 d2 : List (String × PyJson)),
        d1.map Prod.fst = d2.map Prod.fst → d1 ≠ d2 →
        generate_key ns d1 ≠ generate_key ns d2) := by
  intro hclaim
  have hpig : ∃ a b : Nat, a ≠ b ∧ c7fin a = c7fin b :=
    Finite.exists_ne_map_eq_of_infinite c7fin
  obtain ⟨n, m, hnm, hfeq⟩ := hpig
  simp only [c7fin, Fin.mk.injEq] at hfeq
  have htake : (sha256 (keyMsg (c7data n))).take 8 = (sha256 (keyMsg (c7data m))).take 8 := by
    apply bytesToNat_inj
    · rw [List.length_take, List.length_take, sha256_length, sha256_length]
    · exact fun b hb => sha256_byte_lt (List.take_subset _ _ hb)
    · exact fun b hb => sha256_byte_lt (List.take_subset _ _ hb)
    · exact hfeq
  have hkeys := generate_key_eq_of_take8 chatNs (c7data n) (c7data m) htake
  have hfst : (c7data n).map Prod.fst = (c7data m).map Prod.fst := by simp [c7data]
  have hne : c7data n ≠ c7data m := by
    intro he
    apply hnm
    have hstr : String.mk (List.replicate n ('a')) = String.mk (List.replicate m ('a')) := by
      simpa [c7data] using he
    have hlen := congrArg (fun s : String => s.data.length) hstr
    simpa using hlen
  exact hclaim chatNs (c7data n) (c7data m) hfst hne hkeys

/-- C7 (amended): two field mappings derive the same cache key under a
namespace exactly when the 16-character truncations of their hex digests
coincide; distinctness of keys holds precisely up to truncated-digest
collisions, which exist but are computationally hard to exhibit. -/
theorem c7_key_collision_iff (ns : String) (d1 d2 : List (String × PyJson)) :
    generate_key ns d1 = generate_key ns d2 ↔ truncDigest d1 = truncDigest d2 := by
  constructor
  · intro h
    unfold generate_key at h
    have hd := congrArg String.data h
    rw [String.data_append, String.data_append, String.data_append,
      String.data_append] at hd
    exact List.append_cancel_left hd
  · intro h
    unfold generate_key
    rw [h]

end AIService
